import Mathlib

/-!
Shallow embedding of the conference-engine core of the repository
(`TwilioVideoConferenceEngine`): device preference store, connect
validation and device-id resolution (`joinRoom`), the connect success
handler and per-participant wrapping (`participantConnected`), local
track teardown (`turnOffMyVideo` / `turnOffMyAudio`), screen-share
start/stop, and room teardown (`leaveRoom`).

The underlying conferencing SDK is an external collaborator: transport
connect results, acquired screen tracks and remote rooms enter the model
as parameters.  JavaScript truthiness of the values the code tests is
modelled explicitly (`strTruthy`, `deviceIdTruthy`); a spread of a
possibly-null track object is modelled by `spreadDescriptor`.  Promise
settlement is modelled by `PromiseOutcome`, with `pending` for an
executor path that calls neither resolve nor reject.
-/

/-- Media kind of a track ("audio" / "video" in the source). -/
inductive MediaKind
  | audio
  | video
deriving DecidableEq

/-- Track publication priority ("low", "standard", "high"). -/
inductive TrackPriority
  | low
  | standard
  | high
deriving DecidableEq

/-- A live track object owned by the transport (a LocalTrack or
RemoteTrack).  `id` stands for the object identity / sid. -/
structure LiveTrack where
  id : Nat
  kind : MediaKind
deriving DecidableEq

/-- A track publication on a participant: `track` is null until the
track payload is known (for a remote publication that was never
subscribed it stays null). -/
structure Publication where
  trackSid : Nat
  kind : MediaKind
  track : Option LiveTrack
  isSubscribed : Bool
  priority : TrackPriority
deriving DecidableEq

/-- A room occupant.  `tracks` is the participant.tracks map of
publications; the audioTracks / videoTracks maps of the SDK are the
kind-filtered views below. -/
structure Participant where
  id : Nat
  tracks : List Publication
deriving DecidableEq

/-- participant.videoTracks: the video publications. -/
def Participant.videoTracks (p : Participant) : List Publication :=
  p.tracks.filter fun pub => pub.kind == MediaKind.video

/-- participant.audioTracks: the audio publications. -/
def Participant.audioTracks (p : Participant) : List Publication :=
  p.tracks.filter fun pub => pub.kind == MediaKind.audio

/-- A connected room as the transport hands it over: the local
participant plus the roster of remote participants. -/
structure Room where
  localParticipant : Participant
  participants : List Participant
deriving DecidableEq

/-- The persisted key-value preference store (localStorage keys
"audioInputDeviceId", "audioOutputDeviceId", "videoDeviceId"). -/
structure DeviceStore where
  audioInputDeviceId : Option String
  audioOutputDeviceId : Option String
  videoDeviceId : Option String
deriving DecidableEq

/-- assignDefaultAudioInputDeviceId: localStorage.setItem. -/
def assignDefaultAudioInputDeviceId (store : DeviceStore) (audioInputDeviceId : String) : DeviceStore :=
  { store with audioInputDeviceId := some audioInputDeviceId }

/-- assignDefaultAudioOutputDeviceId: localStorage.setItem. -/
def assignDefaultAudioOutputDeviceId (store : DeviceStore) (audioOutputDeviceId : String) : DeviceStore :=
  { store with audioOutputDeviceId := some audioOutputDeviceId }

/-- assignDefaultVideoInputDeviceId: localStorage.setItem("videoDeviceId", id). -/
def assignDefaultVideoInputDeviceId (store : DeviceStore) (videoDeviceId : String) : DeviceStore :=
  { store with videoDeviceId := some videoDeviceId }

/-- clearDefaultAudioInputDeviceId: localStorage.removeItem. -/
def clearDefaultAudioInputDeviceId (store : DeviceStore) : DeviceStore :=
  { store with audioInputDeviceId := none }

/-- clearDefaultAudioOutputDeviceId: localStorage.removeItem. -/
def clearDefaultAudioOutputDeviceId (store : DeviceStore) : DeviceStore :=
  { store with audioOutputDeviceId := none }

/-- clearDefaultVideoInputDeviceId: localStorage.removeItem("videoDeviceId"). -/
def clearDefaultVideoInputDeviceId (store : DeviceStore) : DeviceStore :=
  { store with videoDeviceId := none }

/-- The engine-lifetime device id cache filled by fetchDeviceIds. -/
structure DeviceIds where
  audio : Option String
  video : Option String
deriving DecidableEq

/-- fetchDeviceIds: reads localStorage "audioInputDeviceId" and
"videoDeviceId" into the cache. -/
def fetchDeviceIds (store : DeviceStore) : DeviceIds :=
  { audio := store.audioInputDeviceId, video := store.videoDeviceId }

/-- A deviceId value inside ConnectOptions.audio / ConnectOptions.video:
either the object form the code assigns, \x7b exact: v \x7d with v
possibly null, or a plain string as a caller may pass. -/
inductive DeviceIdSpec
  | exact (v : Option String)
  | plain (s : String)
deriving DecidableEq

/-- JavaScript truthiness of an optional string (undefined and "" are
falsy). -/
def strTruthy : Option String → Bool
  | none => false
  | some s => !(s == "")

/-- JavaScript truthiness of an optional deviceId value: an object of
the form exact is always truthy, even when it wraps null; a plain
string is truthy when non-empty. -/
def deviceIdTruthy : Option DeviceIdSpec → Bool
  | none => false
  | some (DeviceIdSpec.exact _) => true
  | some (DeviceIdSpec.plain s) => !(s == "")

/-- The audio or video member of ConnectOptions. -/
structure MediaOptions where
  deviceId : Option DeviceIdSpec
  width : Option Nat
  height : Option Nat
deriving DecidableEq

/-- ConnectOptions as joinRoom manipulates them: name, audio, video.
A missing audio / video member models a falsy one. -/
structure ConnectOptions where
  name : Option String
  audio : Option MediaOptions
  video : Option MediaOptions
deriving DecidableEq

/-- Modelled from the spec: the file ./defaultConnectOptions of the
repository is not under src/.  Per the spec the default configuration
enables audio and video with no preselected device, so the device ids
are resolved from the store. -/
def defaultConnectOptions : ConnectOptions :=
  { name := none
    audio := some { deviceId := none, width := none, height := none }
    video := some { deviceId := none, width := none, height := none } }

/-- The track descriptor an emitted notification carries. -/
structure TrackDescriptor where
  kind : Option MediaKind
  sid : Option Nat
deriving DecidableEq

/-- The spread the source builds for publication-based notifications:
\x7b ...publication.track, sid: publication.trackSid \x7d.  When the
publication has no track payload the spread of null contributes
nothing, so only the sid remains and the kind tag is absent. -/
def spreadDescriptor (pub : Publication) : TrackDescriptor :=
  { kind := pub.track.map LiveTrack.kind, sid := some pub.trackSid }

/-- Descriptor of a live track payload handed to a listener. -/
def descriptorOfTrack (t : LiveTrack) : TrackDescriptor :=
  { kind := some t.kind, sid := some t.id }

/-- The notifications handed to notifyOfEvent, in call order.  The
participantDisconnected payload is optional because leaveRoom passes
null when no room is held. -/
inductive Event
  | roomConnected
  | roomCompleted
  | participantConnected (pid : Nat)
  | participantDisconnected (pid : Option Nat)
  | subscribedTrack (d : TrackDescriptor) (pid : Nat)
  | unsubscribedTrack (d : TrackDescriptor) (pid : Nat)
  | dominantSpeakerChanged (pid : Nat)
  | existingParticipantsReportingComplete
  | errorOccured
  | debug (msg : String)
deriving DecidableEq

/-- Whether a notification is a ParticipantDisconnected one. -/
def Event.isParticipantDisconnected : Event → Bool
  | Event.participantDisconnected _ => true
  | _ => false

/-- A participant wrapped by participantConnected, with the isRemote
flag it received.  The roster forEach passes the map key as the
isRemote argument; the key is a truthy sid string, recorded here as
true. -/
structure Tracker where
  pid : Nat
  isRemote : Bool
deriving DecidableEq

/-- The module-level engine state: the closure variables eventCallbacks,
currentRoom, currentConnectOptions, currentScreenTrack and the deviceIds
cache, plus the participant wrappers installed so far. -/
structure EngineState where
  eventCallbacksRegistered : Bool
  currentRoom : Option Room
  currentConnectOptions : Option ConnectOptions
  currentScreenTrack : Option LiveTrack
  deviceIds : Option DeviceIds
  trackers : List Tracker
deriving DecidableEq

/-- Side effects of one engine operation: the notifications sent to
notifyOfEvent, the track ids stop() was called on and the track ids
unpublishTrack was called with, each in call order. -/
structure Trace where
  events : List Event
  stops : List Nat
  unpublishes : List Nat
deriving DecidableEq

/-- The empty side-effect record. -/
def Trace.empty : Trace :=
  { events := [], stops := [], unpublishes := [] }

/-- The notifications participantConnected emits while wrapping one
participant: ParticipantConnected first, then one subscribed
notification per publication that is subscribed or has a track payload,
with the spread descriptor.  Installing the listeners (and, for a
remote participant, the mute listeners) emits nothing. -/
def participantConnectedEvents (p : Participant) : List Event :=
  Event.participantConnected p.id ::
    p.tracks.filterMap fun pub =>
      if pub.isSubscribed || pub.track.isSome then
        some (Event.subscribedTrack (spreadDescriptor pub) p.id)
      else none

/-- The trackPublished listener installed per participant: emits a
subscribed notification built from the publication spread. -/
def onTrackPublished (pub : Publication) (pid : Nat) : Event :=
  Event.subscribedTrack (spreadDescriptor pub) pid

/-- The trackUnpublished listener installed per participant: emits an
unsubscribed notification built from the publication spread. -/
def onTrackUnpublished (pub : Publication) (pid : Nat) : Event :=
  Event.unsubscribedTrack (spreadDescriptor pub) pid

/-- The connect success handler of joinRoom: notifies RoomConnected,
stores the room, wraps the local participant with isRemote=false, wraps
every remote of the roster with a truthy isRemote, then notifies
ExistingParticipantsReportingComplete.  Listener registration on the
room emits nothing. -/
def joinRoomOnSuccess (s : EngineState) (room : Room) : EngineState × List Event :=
  ( { s with
        currentRoom := some room
        trackers := s.trackers ++
          Tracker.mk room.localParticipant.id false ::
            room.participants.map fun p => Tracker.mk p.id true },
    Event.roomConnected ::
      participantConnectedEvents room.localParticipant ++
      (room.participants.map fun p => participantConnectedEvents p).flatten ++
      [Event.existingParticipantsReportingComplete] )

/-- The rejection reasons of joinRoom, named after the throw sites. -/
inductive JoinError
  | accessTokenNotSupplied
  | roomNameNotSupplied
  | callbacksNotRegistered
  | noAudioInfo
  | noVideoInfo
  | noAudioDeviceId
  | noVideoDeviceId
  | transportError
deriving DecidableEq

/-- The synchronous phase of joinRoom, up to the transport connect: the
three validation throws, the lazy deviceIds fetch, the device id
resolution into the options, the two no-device-id throws, and the
currentConnectOptions assignment.  Returns the state after this phase
and the options handed to the transport. -/
def joinRoomSync (store : DeviceStore) (s : EngineState)
    (accessToken roomName : Option String) (opts? : Option ConnectOptions) :
    EngineState × Except JoinError ConnectOptions :=
  if strTruthy accessToken = false then
    (s, Except.error JoinError.accessTokenNotSupplied)
  else if strTruthy roomName = false then
    (s, Except.error JoinError.roomNameNotSupplied)
  else if s.eventCallbacksRegistered = false then
    (s, Except.error JoinError.callbacksNotRegistered)
  else
    let co1 := { opts?.getD defaultConnectOptions with name := roomName }
    let ids := s.deviceIds.getD (fetchDeviceIds store)
    let s1 := match s.deviceIds with
      | none => { s with deviceIds := some (fetchDeviceIds store) }
      | some _ => s
    match co1.audio with
    | none => (s1, Except.error JoinError.noAudioInfo)
    | some a =>
      let a1 := if deviceIdTruthy a.deviceId then a
        else { a with deviceId := some (DeviceIdSpec.exact ids.audio) }
      match co1.video with
      | none => (s1, Except.error JoinError.noVideoInfo)
      | some v =>
        let v1 := if deviceIdTruthy v.deviceId then v
          else { v with deviceId := some (DeviceIdSpec.exact ids.video) }
        let co3 := { co1 with audio := some a1, video := some v1 }
        if deviceIdTruthy a1.deviceId = false then
          (s1, Except.error JoinError.noAudioDeviceId)
        else if deviceIdTruthy v1.deviceId = false then
          (s1, Except.error JoinError.noVideoDeviceId)
        else
          ({ s1 with currentConnectOptions := some co3 }, Except.ok co3)

/-- joinRoom end to end: the synchronous phase, then the transport
connect (an external collaborator, given as a function returning the
connected room or none for a rejected connect), then the success
handler.  The source performs no check that a session is already
active: the synchronous phase never reads currentRoom. -/
def joinRoom (store : DeviceStore) (s : EngineState)
    (accessToken roomName : Option String) (opts? : Option ConnectOptions)
    (transport : ConnectOptions → Option Room) :
    EngineState × List Event × Except JoinError Unit :=
  match joinRoomSync store s accessToken roomName opts? with
  | (s1, Except.error e) => (s1, [], Except.error e)
  | (s1, Except.ok co) =>
    match transport co with
    | none => (s1, [], Except.error JoinError.transportError)
    | some room =>
      let r := joinRoomOnSuccess s1 room
      (r.1, r.2, Except.ok ())

/-- The rejection reasons of turnOffMyVideo / turnOffMyAudio, named
after the reject sites. -/
inductive TurnOffError
  | roomInfoMissing
  | noTracksFound
  | noTrackInfoFound
deriving DecidableEq

/-- Whether a turn-off rejection is of the no-local-track-of-this-kind
category of the error taxonomy. -/
def TurnOffError.isNoLocalTrack : TurnOffError → Bool
  | TurnOffError.noTracksFound => true
  | TurnOffError.noTrackInfoFound => true
  | TurnOffError.roomInfoMissing => false

/-- turnOffMyVideo: rejects when no room is held; rejects when the
local videoTracks map is empty, or when its first publication has no
track payload; otherwise unpublishes and stops that track and force
fires an unsubscribed notification whose synthetic descriptor carries
only the video kind tag (the transport fires no unpublish notification
for a local participant). -/
def turnOffMyVideo (s : EngineState) : EngineState × Trace × Except TurnOffError Unit :=
  match s.currentRoom with
  | none => (s, Trace.empty, Except.error TurnOffError.roomInfoMissing)
  | some room =>
    match room.localParticipant.videoTracks with
    | [] => (s, Trace.empty, Except.error TurnOffError.noTracksFound)
    | pub :: _ =>
      match pub.track with
      | none => (s, Trace.empty, Except.error TurnOffError.noTrackInfoFound)
      | some t =>
        let lp := room.localParticipant
        let lp1 := { lp with tracks := lp.tracks.filter fun q => !(q.track == some t) }
        ( { s with currentRoom := some { room with localParticipant := lp1 } },
          { events := [Event.unsubscribedTrack { kind := some MediaKind.video, sid := none } lp.id]
            stops := [t.id]
            unpublishes := [t.id] },
          Except.ok () )

/-- turnOffMyAudio: the audio twin of turnOffMyVideo; the synthetic
descriptor carries the audio kind tag. -/
def turnOffMyAudio (s : EngineState) : EngineState × Trace × Except TurnOffError Unit :=
  match s.currentRoom with
  | none => (s, Trace.empty, Except.error TurnOffError.roomInfoMissing)
  | some room =>
    match room.localParticipant.audioTracks with
    | [] => (s, Trace.empty, Except.error TurnOffError.noTracksFound)
    | pub :: _ =>
      match pub.track with
      | none => (s, Trace.empty, Except.error TurnOffError.noTrackInfoFound)
      | some t =>
        let lp := room.localParticipant
        let lp1 := { lp with tracks := lp.tracks.filter fun q => !(q.track == some t) }
        ( { s with currentRoom := some { room with localParticipant := lp1 } },
          { events := [Event.unsubscribedTrack { kind := some MediaKind.audio, sid := none } lp.id]
            stops := [t.id]
            unpublishes := [t.id] },
          Except.ok () )

/-- leaveRoom: turns the local video and audio tracks off (their
rejections are unobserved), notifies ParticipantDisconnected for the
local participant (null when no room is held), returns if no room is
held, then notifies ParticipantDisconnected per remote participant, a
Debug trace, instructs the transport to disconnect and clears
currentRoom.  The transport firing its own disconnected callback later
is a separate external event, not part of this call. -/
def leaveRoom (s : EngineState) (roomName : String) : EngineState × Trace :=
  let r1 := turnOffMyVideo s
  let r2 := turnOffMyAudio r1.1
  let s2 := r2.1
  let localPd := Event.participantDisconnected
    (s2.currentRoom.map fun r => r.localParticipant.id)
  match s2.currentRoom with
  | none =>
    ( s2,
      { events := r1.2.1.events ++ r2.2.1.events ++ [localPd]
        stops := r1.2.1.stops ++ r2.2.1.stops
        unpublishes := r1.2.1.unpublishes ++ r2.2.1.unpublishes } )
  | some room =>
    ( { s2 with currentRoom := none },
      { events := r1.2.1.events ++ r2.2.1.events ++
          (localPd :: room.participants.map fun p =>
            Event.participantDisconnected (some p.id)) ++
          [Event.debug ("Disconnected from room " ++ roomName)]
        stops := r1.2.1.stops ++ r2.2.1.stops
        unpublishes := r1.2.1.unpublishes ++ r2.2.1.unpublishes } )

/-- How a returned promise settles: resolved, rejected, or pending
forever because the executor called neither resolve nor reject. -/
inductive PromiseOutcome
  | resolved
  | rejected
  | pending
deriving DecidableEq

/-- The videoTracks.forEach setPriority loop of the source: every video
publication of the list is set to the given priority. -/
def setLocalVideoPriority (pr : TrackPriority) (pubs : List Publication) : List Publication :=
  pubs.map fun q => if q.kind == MediaKind.video then { q with priority := pr } else q

/-- The publication publishTrack(track, priority high) adds for the
screen track. -/
def screenPublication (t : LiveTrack) : Publication :=
  { trackSid := t.id, kind := t.kind, track := some t
    isSubscribed := false, priority := TrackPriority.high }

/-- The local publications of the held room (empty when no room is
held). -/
def roomTracks (s : EngineState) : List Publication :=
  match s.currentRoom with
  | none => []
  | some r => r.localParticipant.tracks

/-- startScreenShare, with the screen track acquisition (an external
collaborator) given as a parameter: none models a rejected acquisition.
On success the held screen track reference is overwritten without
stopping a previously held track, every local video publication is
demoted to low priority, and the new track is published at high
priority (the transport publish is modelled as succeeding). -/
def startScreenShare (s : EngineState) (acquired : Option LiveTrack) :
    EngineState × Trace × PromiseOutcome :=
  match acquired with
  | none => (s, Trace.empty, PromiseOutcome.rejected)
  | some t =>
    let s1 := { s with currentScreenTrack := some t }
    match s1.currentRoom with
    | none => (s1, Trace.empty, PromiseOutcome.pending)
    | some room =>
      let lp := room.localParticipant
      let tracks1 := setLocalVideoPriority TrackPriority.low lp.tracks ++ [screenPublication t]
      let room1 : Room := { room with localParticipant := { lp with tracks := tracks1 } }
      ( { s1 with currentRoom := some room1 },
        Trace.empty, PromiseOutcome.resolved )

/-- stopScreenShare: when no screen track is held the executor body is
skipped whole and the promise never settles; otherwise the held track
is stopped, the reference cleared, every local video publication set to
high priority, and the promise resolves.  The stopped screen track is
not unpublished. -/
def stopScreenShare (s : EngineState) : EngineState × Trace × PromiseOutcome :=
  match s.currentScreenTrack with
  | none => (s, Trace.empty, PromiseOutcome.pending)
  | some t =>
    let s1 := { s with currentScreenTrack := none }
    match s1.currentRoom with
    | none =>
      (s1, { events := [], stops := [t.id], unpublishes := [] }, PromiseOutcome.rejected)
    | some room =>
      let lp := room.localParticipant
      let tracks1 := setLocalVideoPriority TrackPriority.high lp.tracks
      let room1 : Room := { room with localParticipant := { lp with tracks := tracks1 } }
      ( { s1 with currentRoom := some room1 },
        { events := [], stops := [t.id], unpublishes := [] }, PromiseOutcome.resolved )

/-! ## Concrete states used by witnesses and counterexamples -/

/-- A local video track fixture. -/
def trackV : LiveTrack := { id := 10, kind := MediaKind.video }

/-- A local audio track fixture. -/
def trackA : LiveTrack := { id := 11, kind := MediaKind.audio }

/-- A local video publication holding `trackV`. -/
def pubV : Publication :=
  { trackSid := 10, kind := MediaKind.video, track := some trackV
    isSubscribed := true, priority := TrackPriority.standard }

/-- A local audio publication holding `trackA`. -/
def pubA : Publication :=
  { trackSid := 11, kind := MediaKind.audio, track := some trackA
    isSubscribed := true, priority := TrackPriority.standard }

/-- The local participant fixture, video publication first. -/
def localP : Participant := { id := 1, tracks := [pubV, pubA] }

/-- A remote participant fixture with one subscribed video publication. -/
def remoteP2 : Participant :=
  { id := 2
    tracks := [{ trackSid := 20, kind := MediaKind.video
                 track := some { id := 20, kind := MediaKind.video }
                 isSubscribed := true, priority := TrackPriority.standard }] }

/-- A remote participant fixture with no publications. -/
def remoteP3 : Participant := { id := 3, tracks := [] }

/-- A connected room fixture. -/
def roomC : Room := { localParticipant := localP, participants := [remoteP2, remoteP3] }

/-- A second room fixture, as a second transport connect would hand over. -/
def roomD : Room := { localParticipant := { id := 4, tracks := [] }, participants := [] }

/-- A store fixture. -/
def storeC : DeviceStore :=
  { audioInputDeviceId := some "mic-1", audioOutputDeviceId := none
    videoDeviceId := some "cam-0" }

/-- Options fixture with no explicit device ids. -/
def optsC : ConnectOptions :=
  { name := none
    audio := some { deviceId := none, width := none, height := none }
    video := some { deviceId := none, width := none, height := none } }

/-- An engine state holding a connected session on `roomC`. -/
def connectedState : EngineState :=
  { eventCallbacksRegistered := true
    currentRoom := some roomC
    currentConnectOptions := some optsC
    currentScreenTrack := none
    deviceIds := some { audio := some "mic-1", video := some "cam-0" }
    trackers := [Tracker.mk 1 false, Tracker.mk 2 true, Tracker.mk 3 true] }

/-- A fresh engine state: callbacks registered, nothing else touched. -/
def freshState : EngineState :=
  { eventCallbacksRegistered := true
    currentRoom := none
    currentConnectOptions := none
    currentScreenTrack := none
    deviceIds := none
    trackers := [] }

/-! ## Helper lemmas -/

/-- Wrapping one participant emits only ParticipantConnected and
subscribed notifications. -/
theorem mem_participantConnectedEvents (e : Event) (p : Participant)
    (h : e ∈ participantConnectedEvents p) :
    e = Event.participantConnected p.id ∨ ∃ d, e = Event.subscribedTrack d p.id := by
  simp only [participantConnectedEvents, List.mem_cons, List.mem_filterMap] at h
  rcases h with h | ⟨pub, _, h⟩
  · exact Or.inl h
  · right
    by_cases hc : (pub.isSubscribed || pub.track.isSome) = true
    · rw [if_pos hc] at h
      exact ⟨spreadDescriptor pub, (Option.some_inj.mp h).symm⟩
    · rw [if_neg hc] at h
      exact absurd h (by simp)

/-- RoomConnected is never emitted while wrapping a participant. -/
theorem roomConnected_not_mem_pc (p : Participant) :
    Event.roomConnected ∉ participantConnectedEvents p := by
  intro h
  rcases mem_participantConnectedEvents _ _ h with h | ⟨d, h⟩ <;> exact absurd h (by simp)

/-- ExistingParticipantsReportingComplete is never emitted while
wrapping a participant. -/
theorem existing_not_mem_pc (p : Participant) :
    Event.existingParticipantsReportingComplete ∉ participantConnectedEvents p := by
  intro h
  rcases mem_participantConnectedEvents _ _ h with h | ⟨d, h⟩ <;> exact absurd h (by simp)

/-- RoomConnected is not among the roster-wrapping notifications. -/
theorem roomConnected_not_mem_flatten (l : List Participant) :
    Event.roomConnected ∉ (l.map fun p => participantConnectedEvents p).flatten := by
  intro h
  rw [List.mem_flatten] at h
  rcases h with ⟨evs, hevs, hmem⟩
  rw [List.mem_map] at hevs
  rcases hevs with ⟨p, _, rfl⟩
  exact roomConnected_not_mem_pc p hmem

/-- ExistingParticipantsReportingComplete is not among the
roster-wrapping notifications. -/
theorem existing_not_mem_flatten (l : List Participant) :
    Event.existingParticipantsReportingComplete ∉
      (l.map fun p => participantConnectedEvents p).flatten := by
  intro h
  rw [List.mem_flatten] at h
  rcases h with ⟨evs, hevs, hmem⟩
  rw [List.mem_map] at hevs
  rcases hevs with ⟨p, _, rfl⟩
  exact existing_not_mem_pc p hmem

/-- C1.  On every successful connect, the emitted notification sequence
opens with RoomConnected, closes with
ExistingParticipantsReportingComplete, contains each of the two exactly
once (so RoomConnected, at index zero, precedes
ExistingParticipantsReportingComplete, at the last index of a list of
length at least two), the notifications in between are exactly the
wrapping of the local participant followed by the wrapping of each
roster remote, and the wrappers record isRemote=false for the local
participant and isRemote=true for every roster remote. -/
theorem connect_success_event_ordering (s : EngineState) (room : Room) :
    (joinRoomOnSuccess s room).2.head? = some Event.roomConnected ∧
    (joinRoomOnSuccess s room).2.getLast? = some Event.existingParticipantsReportingComplete ∧
    (joinRoomOnSuccess s room).2.count Event.roomConnected = 1 ∧
    (joinRoomOnSuccess s room).2.count Event.existingParticipantsReportingComplete = 1 ∧
    2 ≤ (joinRoomOnSuccess s room).2.length ∧
    (joinRoomOnSuccess s room).2 =
      Event.roomConnected ::
        (participantConnectedEvents room.localParticipant ++
          (room.participants.map fun p => participantConnectedEvents p).flatten ++
          [Event.existingParticipantsReportingComplete]) ∧
    (joinRoomOnSuccess s room).1.trackers =
      s.trackers ++ Tracker.mk room.localParticipant.id false ::
        room.participants.map fun p => Tracker.mk p.id true := by
  have hshape : (joinRoomOnSuccess s room).2 =
      Event.roomConnected ::
        (participantConnectedEvents room.localParticipant ++
          (room.participants.map fun p => participantConnectedEvents p).flatten ++
          [Event.existingParticipantsReportingComplete]) := rfl
  refine ⟨rfl, ?_, ?_, ?_, ?_, hshape, rfl⟩ <;> rw [hshape]
  · rw [show Event.roomConnected ::
        (participantConnectedEvents room.localParticipant ++
          (room.participants.map fun p => participantConnectedEvents p).flatten ++
          [Event.existingParticipantsReportingComplete]) =
        (Event.roomConnected ::
          (participantConnectedEvents room.localParticipant ++
            (room.participants.map fun p => participantConnectedEvents p).flatten)) ++
          [Event.existingParticipantsReportingComplete] from by simp]
    exact List.getLast?_concat _
  · rw [List.count_cons_self, List.count_append, List.count_append]
    rw [List.count_eq_zero.mpr (roomConnected_not_mem_pc room.localParticipant),
      List.count_eq_zero.mpr (roomConnected_not_mem_flatten room.participants),
      List.count_eq_zero.mpr (show Event.roomConnected ∉
        [Event.existingParticipantsReportingComplete] from by simp)]
  · rw [List.count_cons_of_ne (show Event.existingParticipantsReportingComplete ≠
        Event.roomConnected from by simp),
      List.count_append, List.count_append]
    rw [List.count_eq_zero.mpr (existing_not_mem_pc room.localParticipant),
      List.count_eq_zero.mpr (existing_not_mem_flatten room.participants)]
    simp
  · simp only [List.length_cons, List.length_append, List.length_singleton]
    omega

/-- C4.  Each of the three validation failures of connect: missing
credentials, missing room name, no registered handler configuration.
In each case the engine state is returned untouched (still Idle), no
notification is emitted and the transport connect is never attempted
(the result does not depend on the transport at all). -/
theorem connect_validation_failures (store : DeviceStore) (s : EngineState)
    (accessToken roomName : Option String) (opts? : Option ConnectOptions)
    (transport : ConnectOptions → Option Room) :
    (strTruthy accessToken = false →
      joinRoom store s accessToken roomName opts? transport =
        (s, [], Except.error JoinError.accessTokenNotSupplied)) ∧
    (strTruthy accessToken = true → strTruthy roomName = false →
      joinRoom store s accessToken roomName opts? transport =
        (s, [], Except.error JoinError.roomNameNotSupplied)) ∧
    (strTruthy accessToken = true → strTruthy roomName = true →
      s.eventCallbacksRegistered = false →
      joinRoom store s accessToken roomName opts? transport =
        (s, [], Except.error JoinError.callbacksNotRegistered)) := by
  refine ⟨fun h1 => ?_, fun h1 h2 => ?_, fun h1 h2 h3 => ?_⟩
  · simp [joinRoom, joinRoomSync, h1]
  · simp [joinRoom, joinRoomSync, h1, h2]
  · simp [joinRoom, joinRoomSync, h1, h2, h3]

/-- Witness for C4 at a concrete input: connect on a fresh engine with
no access token fails with the missing-credentials error and leaves the
state untouched. -/
theorem connect_validation_failures_witness :
    joinRoom storeC freshState none (some "room-1") (some optsC) (fun _ => some roomC) =
      (freshState, [], Except.error JoinError.accessTokenNotSupplied) :=
  (connect_validation_failures storeC freshState none (some "room-1") (some optsC)
    (fun _ => some roomC)).1 (by decide)

/-- Filtering the remote-roster disconnect notifications for
ParticipantDisconnected keeps all of them. -/
theorem filter_pd_map (l : List Participant) :
    (l.map fun p => Event.participantDisconnected (some p.id)).filter
      Event.isParticipantDisconnected =
      l.map fun p => Event.participantDisconnected (some p.id) := by
  induction l with
  | nil => rfl
  | cons q t ih => simp [Event.isParticipantDisconnected, ih]

/-- A participant id outside the roster gets no disconnect notification
from the roster map. -/
theorem count_pd_map_eq_zero (l : List Participant) (i : Nat)
    (h : i ∉ l.map Participant.id) :
    (l.map fun p => Event.participantDisconnected (some p.id)).count
      (Event.participantDisconnected (some i)) = 0 := by
  rw [List.count_eq_zero]
  intro hmem
  rw [List.mem_map] at hmem
  rcases hmem with ⟨p, hp, he⟩
  simp only [Event.participantDisconnected.injEq, Option.some.injEq] at he
  exact h (List.mem_map.mpr ⟨p, hp, he⟩)

/-- With pairwise distinct roster ids, each roster member gets exactly
one disconnect notification from the roster map. -/
theorem count_pd_map_eq_one (l : List Participant) (p : Participant)
    (hp : p ∈ l) (hnd : (l.map Participant.id).Nodup) :
    (l.map fun q => Event.participantDisconnected (some q.id)).count
      (Event.participantDisconnected (some p.id)) = 1 := by
  induction l with
  | nil => cases hp
  | cons q t ih =>
    rw [List.map_cons] at hnd
    rw [List.map_cons]
    rcases List.mem_cons.mp hp with rfl | hpt
    · rw [List.count_cons_self,
        count_pd_map_eq_zero t p.id (List.nodup_cons.mp hnd).1]
    · have hne : Event.participantDisconnected (some p.id) ≠
          Event.participantDisconnected (some q.id) := by
        simp only [ne_eq, Event.participantDisconnected.injEq, Option.some.injEq]
        intro he
        exact (List.nodup_cons.mp hnd).1 (he ▸ List.mem_map.mpr ⟨p, hpt, rfl⟩)
      rw [List.count_cons_of_ne hne]
      exact ih hpt (List.nodup_cons.mp hnd).2

/-- C2.  Disconnecting a Connected session with a local video and a
local audio track active emits exactly one ParticipantDisconnected
notification for the local participant and exactly one for each
remaining remote participant, the local one first; the local-track
teardown contributes only unsubscribed notifications, and the session
is cleared. -/
theorem disconnect_participant_notifications
    (s : EngineState) (room : Room) (roomName : String)
    (vpub apub : Publication) (vt at_ : LiveTrack)
    (h1 : s.currentRoom = some room)
    (h2 : room.localParticipant.tracks = [vpub, apub])
    (h3 : vpub.kind = MediaKind.video)
    (h4 : apub.kind = MediaKind.audio)
    (h5 : vpub.track = some vt)
    (h6 : apub.track = some at_)
    (h7 : at_ ≠ vt)
    (h8 : room.localParticipant.id ∉ room.participants.map Participant.id)
    (h9 : (room.participants.map Participant.id).Nodup) :
    (leaveRoom s roomName).2.events.filter Event.isParticipantDisconnected =
      Event.participantDisconnected (some room.localParticipant.id) ::
        room.participants.map (fun p => Event.participantDisconnected (some p.id)) ∧
    (leaveRoom s roomName).2.events.count
      (Event.participantDisconnected (some room.localParticipant.id)) = 1 ∧
    (∀ p ∈ room.participants,
      (leaveRoom s roomName).2.events.count
        (Event.participantDisconnected (some p.id)) = 1) ∧
    (leaveRoom s roomName).1.currentRoom = none := by
  have hsome : (some at_ == some vt) = false := by
    simp only [beq_eq_false_iff_ne, ne_eq, Option.some.injEq]
    exact h7
  have hev : (leaveRoom s roomName).2.events =
      Event.unsubscribedTrack { kind := some MediaKind.video, sid := none }
          room.localParticipant.id ::
        Event.unsubscribedTrack { kind := some MediaKind.audio, sid := none }
          room.localParticipant.id ::
        Event.participantDisconnected (some room.localParticipant.id) ::
        (room.participants.map fun p => Event.participantDisconnected (some p.id)) ++
        [Event.debug ("Disconnected from room " ++ roomName)] := by
    simp [leaveRoom, turnOffMyVideo, turnOffMyAudio, Participant.videoTracks,
      Participant.audioTracks, h1, h2, h3, h4, h5, h6, hsome]
  have hroom : (leaveRoom s roomName).1.currentRoom = none := by
    simp [leaveRoom, turnOffMyVideo, turnOffMyAudio, Participant.videoTracks,
      Participant.audioTracks, h1, h2, h3, h4, h5, h6, hsome]
  refine ⟨?_, ?_, ?_, hroom⟩
  · rw [hev]
    simp only [List.filter_append, List.filter_cons, Event.isParticipantDisconnected,
      filter_pd_map]
    simp [Event.isParticipantDisconnected]
  · rw [hev]
    simp [List.count_cons, List.count_append,
      count_pd_map_eq_zero room.participants room.localParticipant.id h8]
  · intro p hp
    rw [hev]
    have hne : p.id ≠ room.localParticipant.id := by
      intro he
      exact h8 (he ▸ List.mem_map.mpr ⟨p, hp, rfl⟩)
    simp [List.count_cons, List.count_append, hne,
      count_pd_map_eq_one room.participants p hp h9]

/-- Witness for C2 at a concrete input: disconnecting the connected
fixture emits the local disconnect notification first, one notification
per remote, and clears the session. -/
theorem disconnect_participant_notifications_witness :
    (leaveRoom connectedState "room-1").2.events.filter Event.isParticipantDisconnected =
      [Event.participantDisconnected (some 1), Event.participantDisconnected (some 2),
        Event.participantDisconnected (some 3)] ∧
    (leaveRoom connectedState "room-1").1.currentRoom = none := by
  have h := disconnect_participant_notifications connectedState roomC "room-1" pubV pubA
    trackV trackA rfl rfl rfl rfl rfl rfl (by decide) (by decide) (by decide)
  refine ⟨?_, h.2.2.2⟩
  rw [h.1]
  decide

/-- A room fixture whose local participant holds no video publication. -/
def roomNV : Room :=
  { localParticipant := { id := 5, tracks := [pubA] }, participants := [] }

/-- A connected engine state on `roomNV`. -/
def noVideoState : EngineState :=
  { eventCallbacksRegistered := true
    currentRoom := some roomNV
    currentConnectOptions := none
    currentScreenTrack := none
    deviceIds := none
    trackers := [] }

/-- C7.  In a Connected session: when the local participant holds no
local video track (no video publication at all, or none carrying a
track payload), turnOffMyVideo rejects with a no-local-track error,
changes no state and emits no notification; when the first local video
publication carries a track, it unpublishes and stops exactly that
track and emits exactly the synthesized unsubscribed notification. -/
theorem turnOffVideo_requires_local_track (s : EngineState) (room : Room)
    (h : s.currentRoom = some room) :
    ((∀ pub ∈ room.localParticipant.videoTracks, pub.track = none) →
      (turnOffMyVideo s).1 = s ∧ (turnOffMyVideo s).2.1 = Trace.empty ∧
      ∃ e, (turnOffMyVideo s).2.2 = Except.error e ∧ e.isNoLocalTrack = true) ∧
    (∀ vpub rest vt, room.localParticipant.videoTracks = vpub :: rest →
      vpub.track = some vt →
      (turnOffMyVideo s).2.2 = Except.ok () ∧
      (turnOffMyVideo s).2.1.unpublishes = [vt.id] ∧
      (turnOffMyVideo s).2.1.stops = [vt.id] ∧
      (turnOffMyVideo s).2.1.events =
        [Event.unsubscribedTrack { kind := some MediaKind.video, sid := none }
          room.localParticipant.id]) := by
  constructor
  · intro hall
    cases hvt : room.localParticipant.videoTracks with
    | nil =>
      refine ⟨?_, ?_, TurnOffError.noTracksFound, ?_, rfl⟩ <;>
        simp [turnOffMyVideo, h, hvt]
    | cons pub rest =>
      have hp : pub.track = none := hall pub (hvt ▸ List.mem_cons_self pub rest)
      refine ⟨?_, ?_, TurnOffError.noTrackInfoFound, ?_, rfl⟩ <;>
        simp [turnOffMyVideo, h, hvt, hp]
  · intro vpub rest vt hvt hv
    refine ⟨?_, ?_, ?_, ?_⟩ <;> simp [turnOffMyVideo, h, hvt, hv]

/-- Witness for C7 at a concrete input: with no local video publication
the call rejects with a no-local-track error. -/
theorem turnOffVideo_requires_local_track_witness :
    ((turnOffMyVideo noVideoState).1 = noVideoState ∧
      (turnOffMyVideo noVideoState).2.1 = Trace.empty ∧
      ∃ e, (turnOffMyVideo noVideoState).2.2 = Except.error e ∧ e.isNoLocalTrack = true) :=
  (turnOffVideo_requires_local_track noVideoState roomNV rfl).1 (by decide)

/-- Every video publication of a priority-set list has that priority. -/
theorem mem_setLocalVideoPriority (pr : TrackPriority) (l : List Publication)
    (q : Publication) (hq : q ∈ setLocalVideoPriority pr l)
    (hk : q.kind = MediaKind.video) : q.priority = pr := by
  rw [setLocalVideoPriority, List.mem_map] at hq
  rcases hq with ⟨q0, _, rfl⟩
  by_cases hk0 : (q0.kind == MediaKind.video) = true
  · simp [hk0]
  · rw [if_neg hk0] at hk ⊢
    exact absurd hk (by simpa using hk0)

/-- A deviceId of the object form exact is always truthy, whatever it
wraps. -/
theorem deviceIdTruthy_exact (o : Option String) :
    deviceIdTruthy (some (DeviceIdSpec.exact o)) = true := rfl

/-- C3 (amended).  The source performs no session-already-active check:
a connect call while a session is Connected runs the same validation
and device resolution and, on transport success, succeeds and replaces
the held room with the new one.  No SessionAlreadyActive rejection
exists in the code. -/
theorem connect_while_connected_replaces_room
    (store : DeviceStore) (s : EngineState) (r1 : Room)
    (accessToken roomName : Option String) (opts : ConnectOptions)
    (a v : MediaOptions) (room2 : Room)
    (_hActive : s.currentRoom = some r1)
    (hT : strTruthy accessToken = true)
    (hR : strTruthy roomName = true)
    (hC : s.eventCallbacksRegistered = true)
    (hA : opts.audio = some a)
    (hV : opts.video = some v) :
    (joinRoom store s accessToken roomName (some opts) (fun _ => some room2)).2.2 =
      Except.ok () ∧
    (joinRoom store s accessToken roomName (some opts) (fun _ => some room2)).1.currentRoom =
      some room2 := by
  cases hd : s.deviceIds <;>
    by_cases ha1 : deviceIdTruthy a.deviceId <;>
      by_cases hv1 : deviceIdTruthy v.deviceId <;>
        simp [joinRoom, joinRoomSync, joinRoomOnSuccess, hT, hR, hC, hA, hV, hd, ha1, hv1,
          deviceIdTruthy_exact]

/-- Counterexample for C3 as stated: on an engine already holding a
connected session, a second connect with valid inputs does not fail at
all (there is no SessionAlreadyActive error): it succeeds and the held
room is replaced by the new room, not kept from the first call. -/
theorem connect_while_connected_counterexample :
    (joinRoom storeC connectedState (some "tok-2") (some "room-2") (some optsC)
      (fun _ => some roomD)).2.2 = Except.ok () ∧
    (joinRoom storeC connectedState (some "tok-2") (some "room-2") (some optsC)
      (fun _ => some roomD)).1.currentRoom = some roomD ∧
    roomD ≠ roomC := by
  refine ⟨rfl, rfl, by decide⟩

/-- Witness for the amended C3 at a concrete input. -/
theorem connect_while_connected_witness :
    (joinRoom storeC connectedState (some "tok-3") (some "room-3") (some optsC)
      (fun _ => some roomD)).2.2 = Except.ok () ∧
    (joinRoom storeC connectedState (some "tok-3") (some "room-3") (some optsC)
      (fun _ => some roomD)).1.currentRoom = some roomD :=
  connect_while_connected_replaces_room storeC connectedState roomC (some "tok-3")
    (some "room-3") optsC { deviceId := none, width := none, height := none }
    { deviceId := none, width := none, height := none } roomD rfl (by decide) (by decide)
    rfl rfl rfl

/-- C9.  Round-trip through the preference store: after assigning
"cam-1" as the default video input device, a fresh connect (device
cache not yet filled) whose options carry no truthy video device id
succeeds through validation and resolves the video device id to
exact "cam-1". -/
theorem device_preference_roundtrip
    (store : DeviceStore) (s : EngineState)
    (accessToken roomName : Option String) (opts : ConnectOptions)
    (a v : MediaOptions)
    (hFresh : s.deviceIds = none)
    (hT : strTruthy accessToken = true)
    (hR : strTruthy roomName = true)
    (hC : s.eventCallbacksRegistered = true)
    (hA : opts.audio = some a)
    (hV : opts.video = some v)
    (hVd : deviceIdTruthy v.deviceId = false) :
    ((joinRoomSync (assignDefaultVideoInputDeviceId store "cam-1") s
        accessToken roomName (some opts)).2.map fun co =>
          co.video.bind MediaOptions.deviceId) =
      Except.ok (some (DeviceIdSpec.exact (some "cam-1"))) := by
  by_cases ha1 : deviceIdTruthy a.deviceId <;>
    simp [joinRoomSync, assignDefaultVideoInputDeviceId, fetchDeviceIds, hFresh, hT, hR,
      hC, hA, hV, hVd, ha1, deviceIdTruthy_exact, Option.bind, Except.map]

/-- Witness for C9 at a concrete input. -/
theorem device_preference_roundtrip_witness :
    ((joinRoomSync (assignDefaultVideoInputDeviceId storeC "cam-1") freshState
        (some "tok-9") (some "room-9") (some optsC)).2.map fun co =>
          co.video.bind MediaOptions.deviceId) =
      Except.ok (some (DeviceIdSpec.exact (some "cam-1"))) :=
  device_preference_roundtrip storeC freshState (some "tok-9") (some "room-9") optsC
    { deviceId := none, width := none, height := none }
    { deviceId := none, width := none, height := none }
    rfl (by decide) (by decide) rfl rfl rfl (by decide)

/-- C10.  The persisted preferences are read only on the first connect:
a connect with an empty device cache fills the cache from the store;
once the cache is filled, a connect with no truthy device options
resolves both device ids from the cache, leaves the cache unchanged,
and its whole result does not depend on the store at all, so
assign/clear preference calls between two connects cannot affect the
later connect. -/
theorem device_cache_first_connect_only
    (store store2 : DeviceStore) (s : EngineState)
    (accessToken roomName : Option String) (opts : ConnectOptions) (a v : MediaOptions)
    (hT : strTruthy accessToken = true)
    (hR : strTruthy roomName = true)
    (hC : s.eventCallbacksRegistered = true)
    (hA : opts.audio = some a) (hAd : deviceIdTruthy a.deviceId = false)
    (hV : opts.video = some v) (hVd : deviceIdTruthy v.deviceId = false) :
    (s.deviceIds = none →
      (joinRoomSync store s accessToken roomName (some opts)).1.deviceIds =
        some (fetchDeviceIds store)) ∧
    (∀ ids, s.deviceIds = some ids →
      joinRoomSync store s accessToken roomName (some opts) =
        joinRoomSync store2 s accessToken roomName (some opts) ∧
      ((joinRoomSync store s accessToken roomName (some opts)).2.map fun co =>
          (co.audio.bind MediaOptions.deviceId, co.video.bind MediaOptions.deviceId)) =
        Except.ok (some (DeviceIdSpec.exact ids.audio),
          some (DeviceIdSpec.exact ids.video)) ∧
      (joinRoomSync store s accessToken roomName (some opts)).1.deviceIds = some ids) := by
  constructor
  · intro hFresh
    simp [joinRoomSync, hT, hR, hC, hA, hV, hAd, hVd, hFresh, deviceIdTruthy_exact]
  · intro ids hCache
    refine ⟨?_, ?_, ?_⟩ <;>
      simp [joinRoomSync, hT, hR, hC, hA, hV, hAd, hVd, hCache, deviceIdTruthy_exact,
        Option.bind, Except.map]

/-- Witness for C10 at a concrete input: with the cache filled, the
resolution ignores a store whose preferences were cleared in between. -/
theorem device_cache_first_connect_only_witness :
    joinRoomSync storeC connectedState (some "tok-10") (some "room-10") (some optsC) =
      joinRoomSync (clearDefaultVideoInputDeviceId storeC) connectedState
        (some "tok-10") (some "room-10") (some optsC) :=
  ((device_cache_first_connect_only storeC (clearDefaultVideoInputDeviceId storeC)
    connectedState (some "tok-10") (some "room-10") optsC
    { deviceId := none, width := none, height := none }
    { deviceId := none, width := none, height := none }
    (by decide) (by decide) rfl rfl (by decide) rfl (by decide)).2
    { audio := some "mic-1", video := some "cam-0" } rfl).1

/-- C8 (amended).  stopScreenShare in a Connected session: when no
screen-share track is held it changes no state and emits nothing, but
its promise never settles (the executor calls neither resolve nor
reject); when a screen track is held, it stops exactly that track,
clears the reference, sets every local video publication to high
priority and resolves. -/
theorem stopScreenShare_noop_and_restore (s : EngineState) (room : Room)
    (h : s.currentRoom = some room) :
    (s.currentScreenTrack = none →
      stopScreenShare s = (s, Trace.empty, PromiseOutcome.pending)) ∧
    (∀ t, s.currentScreenTrack = some t →
      (stopScreenShare s).1.currentScreenTrack = none ∧
      (stopScreenShare s).2.1.stops = [t.id] ∧
      (stopScreenShare s).2.2 = PromiseOutcome.resolved ∧
      ∀ q ∈ roomTracks (stopScreenShare s).1,
        q.kind = MediaKind.video → q.priority = TrackPriority.high) := by
  constructor
  · intro hn
    simp [stopScreenShare, hn]
  · intro t ht
    refine ⟨?_, ?_, ?_, ?_⟩
    · simp [stopScreenShare, ht, h]
    · simp [stopScreenShare, ht, h]
    · simp [stopScreenShare, ht, h]
    · intro q hq hk
      have hq2 : q ∈ setLocalVideoPriority TrackPriority.high
          room.localParticipant.tracks := by
        simpa [stopScreenShare, ht, h, roomTracks] using hq
      exact mem_setLocalVideoPriority TrackPriority.high _ q hq2 hk

/-- Counterexample for C8 as stated: with no screen-share track held,
the stopScreenShare promise does not complete successfully: it stays
pending forever (neither resolved nor rejected), although no state is
changed. -/
theorem stopScreenShare_pending_counterexample :
    (stopScreenShare connectedState).2.2 = PromiseOutcome.pending ∧
    (stopScreenShare connectedState).2.2 ≠ PromiseOutcome.resolved ∧
    (stopScreenShare connectedState).1 = connectedState :=
  ⟨rfl, by decide, rfl⟩

/-- Witness for the amended C8 at a concrete input. -/
theorem stopScreenShare_noop_witness :
    stopScreenShare connectedState = (connectedState, Trace.empty, PromiseOutcome.pending) :=
  (stopScreenShare_noop_and_restore connectedState roomC rfl).1 rfl

/-- C5 (amended).  Two startScreenShare calls in a Connected session:
neither call stops any track, so the first screen track is leaked
still live; only the reference is overwritten, leaving the second
track as the single held one while the first remains published (now at
low priority).  After the second start every local video publication
except the newly published screen track has low priority; the new
screen publication has high priority.  stopScreenShare then stops only
the second track, clears the reference and sets every local video
publication to high priority. -/
theorem startScreenShare_twice_overwrites (s : EngineState) (room : Room)
    (t1 t2 : LiveTrack)
    (h : s.currentRoom = some room)
    (h1 : t1.kind = MediaKind.video)
    (_h2 : t2.kind = MediaKind.video) :
    ((startScreenShare s (some t1)).2.1.stops = [] ∧
      (startScreenShare (startScreenShare s (some t1)).1 (some t2)).2.1.stops = []) ∧
    (startScreenShare (startScreenShare s (some t1)).1 (some t2)).1.currentScreenTrack =
      some t2 ∧
    (∃ q ∈ roomTracks (startScreenShare (startScreenShare s (some t1)).1 (some t2)).1,
      q.track = some t1 ∧ q.priority = TrackPriority.low) ∧
    (∀ q ∈ roomTracks (startScreenShare (startScreenShare s (some t1)).1 (some t2)).1,
      q.kind = MediaKind.video →
        q.priority = TrackPriority.low ∨
          (q.priority = TrackPriority.high ∧ q.track = some t2)) ∧
    ((stopScreenShare
        (startScreenShare (startScreenShare s (some t1)).1 (some t2)).1).2.1.stops =
      [t2.id] ∧
      (stopScreenShare
        (startScreenShare (startScreenShare s (some t1)).1 (some t2)).1).1.currentScreenTrack =
        none ∧
      ∀ q ∈ roomTracks
          (stopScreenShare
            (startScreenShare (startScreenShare s (some t1)).1 (some t2)).1).1,
        q.kind = MediaKind.video → q.priority = TrackPriority.high) := by
  have htr : roomTracks (startScreenShare (startScreenShare s (some t1)).1 (some t2)).1 =
      setLocalVideoPriority TrackPriority.low
        (setLocalVideoPriority TrackPriority.low room.localParticipant.tracks ++
          [screenPublication t1]) ++ [screenPublication t2] := by
    simp [startScreenShare, h, roomTracks]
  refine ⟨⟨?_, ?_⟩, ?_, ?_, ?_, ?_, ?_, ?_⟩
  · simp [startScreenShare, h, Trace.empty]
  · simp [startScreenShare, h, Trace.empty]
  · simp [startScreenShare, h]
  · refine ⟨{ screenPublication t1 with priority := TrackPriority.low }, ?_, rfl, rfl⟩
    rw [htr]
    apply List.mem_append_left
    rw [setLocalVideoPriority, List.map_append]
    apply List.mem_append_right
    simp [screenPublication, h1]
  · intro q hq hk
    rw [htr] at hq
    rcases List.mem_append.mp hq with hq1 | hq2
    · exact Or.inl (mem_setLocalVideoPriority TrackPriority.low _ q hq1 hk)
    · right
      rw [List.mem_singleton] at hq2
      subst hq2
      exact ⟨rfl, rfl⟩
  · simp [stopScreenShare, startScreenShare, h]
  · simp [stopScreenShare, startScreenShare, h]
  · intro q hq hk
    have hscreen : (startScreenShare (startScreenShare s (some t1)).1
        (some t2)).1.currentScreenTrack = some t2 := by
      simp [startScreenShare, h]
    have hq2 : q ∈ setLocalVideoPriority TrackPriority.high
        (roomTracks (startScreenShare (startScreenShare s (some t1)).1 (some t2)).1) := by
      rw [htr]
      simpa [stopScreenShare, startScreenShare, h, roomTracks, htr] using hq
    exact mem_setLocalVideoPriority TrackPriority.high _ q hq2 hk

/-- A first screen capture track fixture. -/
def tS1 : LiveTrack := { id := 30, kind := MediaKind.video }

/-- A second screen capture track fixture. -/
def tS2 : LiveTrack := { id := 31, kind := MediaKind.video }

/-- Counterexample for C5 as stated: the second startScreenShare does
not stop the first screen track before publishing the new one: the
second call performs no stop call at all, and the first track is still
published afterwards; only the held reference is overwritten. -/
theorem startScreenShare_twice_counterexample :
    (startScreenShare (startScreenShare connectedState (some tS1)).1 (some tS2)).2.1.stops =
      [] ∧
    (startScreenShare
      (startScreenShare connectedState (some tS1)).1 (some tS2)).1.currentScreenTrack =
      some tS2 ∧
    ((roomTracks (startScreenShare (startScreenShare connectedState (some tS1)).1
        (some tS2)).1).any fun q => q.track == some tS1) = true := by
  decide

/-- Witness for the amended C5 at a concrete input. -/
theorem startScreenShare_twice_witness :
    ((startScreenShare connectedState (some tS1)).2.1.stops = [] ∧
      (startScreenShare (startScreenShare connectedState (some tS1)).1 (some tS2)).2.1.stops =
        []) ∧
    (startScreenShare
      (startScreenShare connectedState (some tS1)).1 (some tS2)).1.currentScreenTrack =
      some tS2 :=
  have h := startScreenShare_twice_overwrites connectedState roomC tS1 tS2 rfl rfl rfl
  ⟨h.1, h.2.1⟩

/-- C6 (amended).  Emitted track notifications always carry a
participant reference by construction.  The synthesized local
forced-unpublish notification carries the media-kind tag, and so does
every publication-spread notification whose publication holds a track
payload; but when the publication holds no track payload (a remote
publish/unpublish known only through the publication), the spread
descriptor carries only the sid and no media-kind tag. -/
theorem trackBinding_descriptor_kinds (pub : Publication) (pid : Nat) :
    (pub.track = none →
      onTrackUnpublished pub pid =
        Event.unsubscribedTrack { kind := none, sid := some pub.trackSid } pid ∧
      onTrackPublished pub pid =
        Event.subscribedTrack { kind := none, sid := some pub.trackSid } pid) ∧
    (∀ t, pub.track = some t →
      onTrackUnpublished pub pid =
        Event.unsubscribedTrack { kind := some t.kind, sid := some pub.trackSid } pid) ∧
    (∀ s room, s.currentRoom = some room →
      ∀ vpub rest vt, room.localParticipant.videoTracks = vpub :: rest →
        vpub.track = some vt →
        (turnOffMyVideo s).2.1.events =
          [Event.unsubscribedTrack { kind := some MediaKind.video, sid := none }
            room.localParticipant.id]) := by
  refine ⟨fun hn => ⟨?_, ?_⟩, fun t ht => ?_, fun s room h vpub rest vt hvt hv => ?_⟩
  · simp [onTrackUnpublished, spreadDescriptor, hn]
  · simp [onTrackPublished, spreadDescriptor, hn]
  · simp [onTrackUnpublished, spreadDescriptor, ht]
  · simp [turnOffMyVideo, h, hvt, hv]

/-- A remote publication known only through its publication record: no
track payload, though the publication itself is of video kind. -/
def pubNoTrack : Publication :=
  { trackSid := 7, kind := MediaKind.video, track := none
    isSubscribed := false, priority := TrackPriority.standard }

/-- Counterexample for C6 as stated: a remote unpublish notification
for a publication with no track payload carries a descriptor with no
media-kind tag, even though the publication knows its kind. -/
theorem unpublished_descriptor_missing_kind_counterexample :
    onTrackUnpublished pubNoTrack 3 =
      Event.unsubscribedTrack { kind := none, sid := some 7 } 3 ∧
    (spreadDescriptor pubNoTrack).kind = none ∧
    pubNoTrack.kind = MediaKind.video :=
  ⟨rfl, rfl, rfl⟩

/-- Witness for the amended C6 at a concrete input: with a track
payload present the spread descriptor does carry the media kind. -/
theorem trackBinding_descriptor_kinds_witness :
    onTrackUnpublished pubV 1 =
      Event.unsubscribedTrack { kind := some MediaKind.video, sid := some 10 } 1 :=
  (trackBinding_descriptor_kinds pubV 1).2.1 trackV rfl
